import Mathlib

/-!
Shallow embedding of `src/bot.py` (notion-expense-tracker-tg-bot).

The embedded code is `parse_expense_message` (src/bot.py lines 32-74) and the
dispatch structure of `handle_expense` (lines 89-165).  Python strings are
modelled as `List Char` / `String` restricted to ASCII behaviour:
`str.strip()` strips the six ASCII whitespace characters, `float()` and
`datetime.strptime` recognise ASCII digits (CPython additionally accepts
Unicode digits and whitespace; no claim exercises those).  Python `float`
values are modelled as exact signed decimal values (mantissa, power of ten)
plus infinities and NaN; IEEE-754 rounding/overflow of the decimal literal is
not modelled, and no claim depends on it.
-/

namespace NotionExpense

/-- ASCII whitespace characters stripped by Python `str.strip()`:
space, tab, newline, carriage return, vertical tab, form feed. -/
def isSpace (c : Char) : Bool :=
  c = ' ' || c = '\t' || c = '\n' || c = '\r' || c = Char.ofNat 11 || c = Char.ofNat 12

/-- ASCII decimal digit. -/
def isDigit (c : Char) : Bool :=
  '0' ≤ c && c ≤ '9'

/-- Lower-case an ASCII letter (for the case-insensitive `inf`/`nan` forms
accepted by Python `float()`). -/
def lowerChar (c : Char) : Char :=
  if 'A' ≤ c && c ≤ 'Z' then Char.ofNat (c.toNat + 32) else c

/-- Case-insensitive comparison of two character lists (ASCII). -/
def ciEq (a b : List Char) : Bool :=
  a.map lowerChar = b.map lowerChar

/-- Python `str.split(sep)` for a one-character separator: splitting the empty
string yields `[[]]` (Python: `"".split(',') == ['']`), and every separator
occurrence produces a boundary. -/
def splitBy (p : Char → Bool) : List Char → List (List Char)
  | [] => [[]]
  | c :: cs =>
    if p c then [] :: splitBy p cs
    else
      match splitBy p cs with
      | s :: ss => (c :: s) :: ss
      | [] => [[c]]

/-- Python `str.strip()`: drop leading whitespace. -/
def lstrip (l : List Char) : List Char :=
  l.dropWhile isSpace

/-- Python `str.strip()`: drop trailing whitespace. -/
def rstrip (l : List Char) : List Char :=
  (l.reverse.dropWhile isSpace).reverse

/-- Python `str.strip()` (ASCII whitespace). -/
def pyStrip (l : List Char) : List Char :=
  rstrip (lstrip l)

/-- Numeric value of a list of ASCII digits (most significant first). -/
def digitsToNat (l : List Char) : Nat :=
  l.foldl (fun n c => 10 * n + (c.toNat - 48)) 0

/-- A calendar date as produced by `datetime.strptime(s, '%Y-%m-%d').date()`. -/
structure Date where
  year : Nat
  month : Nat
  day : Nat
deriving DecidableEq, Repr

/-- Gregorian leap year, as in `datetime` (`calendar.isleap`). -/
def isLeap (y : Nat) : Bool :=
  y % 4 = 0 && (y % 100 ≠ 0 || y % 400 = 0)

/-- Days in a month, as validated by the `datetime` constructor. -/
def daysInMonth (y m : Nat) : Nat :=
  if m = 2 then (if isLeap y then 29 else 28)
  else if m = 4 || m = 6 || m = 9 || m = 11 then 30
  else 31

/-- `datetime.strptime(s, '%Y-%m-%d').date()` as an `Option`: CPython compiles
the format to the regex `\d\d\d\d - (1[0-2]|0[1-9]|[1-9]) - (3[01]|[12]\d|0[1-9]|[1-9])`
(hyphens literal) anchored at both ends, then builds `datetime(year, month, day)`,
which additionally requires `1 <= year` and `day <= daysInMonth`.  The month and
day alternations are exactly: all digits, one or two characters, value in range
1-12 (resp. 1-31).  `none` models the `ValueError` raised on failure. -/
def strptimeDate (s : List Char) : Option Date :=
  match splitBy (fun c => c = '-') s with
  | [ys, ms, ds] =>
    if ys.length = 4 && ys.all isDigit
        && (ms.length = 1 || ms.length = 2) && ms.all isDigit
        && (ds.length = 1 || ds.length = 2) && ds.all isDigit then
      let y := digitsToNat ys
      let m := digitsToNat ms
      let d := digitsToNat ds
      if 1 ≤ y && 1 ≤ m && m ≤ 12 && 1 ≤ d && d ≤ daysInMonth y m then
        some ⟨y, m, d⟩
      else none
    else none
  | _ => none

/-- The value produced by Python `float(s)`: an exact signed decimal
`mant * 10 ^ exp`, an infinity, or NaN (IEEE rounding not modelled). -/
inductive PyFloat where
  | finite (mant : Int) (exp : Int)
  | inf (neg : Bool)
  | nan
deriving DecidableEq, Repr

/-- `> 0` on a `PyFloat`, matching Python comparison on the parsed value:
positive finite values and `+inf` are positive; `0.0`, `-0.0`, negative
values, `-inf` and `nan` are not. -/
def PyFloat.isPos : PyFloat → Bool
  | .finite m _ => 0 < m
  | .inf neg => !neg
  | .nan => false

/-- A digit group possibly containing PEP-515 underscores, after its leading
digit: every underscore must sit between two digits. -/
def digitsUCore : List Char → Bool
  | [] => true
  | c :: cs =>
    if isDigit c then digitsUCore cs
    else if c = '_' then
      match cs with
      | d :: cs2 => isDigit d && digitsUCore cs2
      | [] => false
    else false

/-- A non-empty digit group with optional underscores between digits, as
accepted inside Python `float()` literals. -/
def digitsUValid : List Char → Bool
  | [] => false
  | c :: cs => isDigit c && digitsUCore cs

/-- Numeric value of a digit group, ignoring underscores. -/
def digitsUVal (l : List Char) : Nat :=
  digitsToNat (l.filter (fun c => c ≠ '_'))

/-- Number of actual digits in a digit group (underscores ignored). -/
def digitCount (l : List Char) : Nat :=
  (l.filter (fun c => c ≠ '_')).length

/-- Parse the mantissa of a Python float literal (no sign, no exponent):
`digits`, `digits '.' digits?`, or `'.' digits`.  Returns the integer formed
by all digits together with the number of fractional digits. -/
def pyFloatMantissa (body : List Char) : Option (Nat × Nat) :=
  match splitBy (fun c => c = '.') body with
  | [ip] =>
    if digitsUValid ip then some (digitsUVal ip, 0) else none
  | [ip, fp] =>
    if (ip.isEmpty || digitsUValid ip) && (fp.isEmpty || digitsUValid fp)
        && !(ip.isEmpty && fp.isEmpty) then
      some (digitsUVal ip * 10 ^ digitCount fp + digitsUVal fp, digitCount fp)
    else none
  | _ => none

/-- Parse the exponent part of a Python float literal: optional sign then a
digit group. -/
def pyFloatExp (l : List Char) : Option Int :=
  match l with
  | '+' :: rest => if digitsUValid rest then some (digitsUVal rest) else none
  | '-' :: rest => if digitsUValid rest then some (-(digitsUVal rest : Int)) else none
  | rest => if digitsUValid rest then some (digitsUVal rest) else none

/-- Parse the unsigned body of a Python float literal (after sign removal,
excluding the `inf`/`nan` forms): mantissa with optional `e`/`E` exponent. -/
def pyFloatNumber (neg : Bool) (body : List Char) : Option PyFloat :=
  match splitBy (fun c => c = 'e' || c = 'E') body with
  | [m] =>
    match pyFloatMantissa m with
    | some (v, f) => some (.finite (if neg then -(v : Int) else (v : Int)) (-(f : Int)))
    | none => none
  | [m, ex] =>
    match pyFloatMantissa m, pyFloatExp ex with
    | some (v, f), some e =>
      some (.finite (if neg then -(v : Int) else (v : Int)) (e - (f : Int)))
    | _, _ => none
  | _ => none

/-- Python `float(s)` on a string, as an `Option` (`none` models the
`ValueError: could not convert string to float`): strips whitespace, takes an
optional sign, accepts case-insensitive `inf`/`infinity`/`nan`, otherwise a
decimal literal with optional fraction and exponent and PEP-515 underscores. -/
def pyFloat (raw : List Char) : Option PyFloat :=
  let s := pyStrip raw
  let signBody : Bool × List Char :=
    match s with
    | '+' :: rest => (false, rest)
    | '-' :: rest => (true, rest)
    | _ => (false, s)
  let neg := signBody.1
  let body := signBody.2
  if ciEq body ['i', 'n', 'f'] || ciEq body ['i', 'n', 'f', 'i', 'n', 'i', 't', 'y'] then
    some (.inf neg)
  else if ciEq body ['n', 'a', 'n'] then
    some .nan
  else
    pyFloatNumber neg body

/-- Python exceptions relevant to `handle_expense`: `ValueError` (caught by the
first `except` clause, line 157) versus any other exception (caught by the
generic `except Exception` clause, line 162). -/
inductive PyErr where
  | valueError (msg : String)
  | otherError (msg : String)
deriving DecidableEq, Repr

/-- The dict returned by `parse_expense_message` (src/bot.py lines 67-74). -/
structure ExpenseRecord where
  date : Date
  item : String
  price : PyFloat
  store : String
  category : String
  quantity : String
deriving DecidableEq, Repr

/-- The local variables of `parse_expense_message` after the segment-count
branching (lines 41-65), before the `float(price)` conversion on line 70. -/
structure Resolved where
  date : Date
  item : List Char
  priceStr : List Char
  store : List Char
  category : List Char
  quantity : List Char
deriving DecidableEq, Repr

/-- `ValueError` raised by Python when unpacking 6 values into 5 names
(line 49: `item, price, store, category, quantity = parts` with 6 parts). -/
def valueErrorUnpack : PyErr :=
  .valueError "too many values to unpack (expected 5)"

/-- The message of the `ValueError` raised on line 65. -/
def formatErrStr : String :=
  "Invalid message format. Use: Item, Price, Store, Category"

/-- The `ValueError` raised on line 65 for a segment count other than 4/5/6. -/
def valueErrorFormat : PyErr :=
  .valueError formatErrStr

/-- Message of the `ValueError` raised by `float(price)` on a non-numeric
string (quoting simplified to single quotes). -/
def floatErrStr (s : List Char) : String :=
  "could not convert string to float: " ++ String.mk ('\x27' :: s ++ ['\x27'])

/-- The `ValueError` raised by `float(price)` on line 70. -/
def floatErrMsg (s : List Char) : PyErr :=
  .valueError (floatErrStr s)

/-- Lines 41-65 of `parse_expense_message`: branch on the segment count and
resolve the date/item/price/store/category/quantity variables.  The Python
`try: datetime.strptime... except ValueError:` probe is the `match` on
`strptimeDate`.  In the 6-segment branch the `except` handler executes
`item, price, store, category, quantity = parts` with 6 parts, which raises
`ValueError: too many values to unpack` out of the function (the handler is
already active, so the new ValueError propagates). -/
def resolveSegments (today : Date) (parts : List (List Char)) : Except PyErr Resolved :=
  match parts with
  | [p0, p1, p2, p3, p4, p5] =>
    match strptimeDate p0 with
    | some d => .ok ⟨d, p1, p2, p3, p4, p5⟩
    | none => .error valueErrorUnpack
  | [p0, p1, p2, p3, p4] =>
    match strptimeDate p0 with
    | some d => .ok ⟨d, p1, p2, p3, p4, []⟩
    | none => .ok ⟨today, p0, p1, p2, p3, p4⟩
  | [p0, p1, p2, p3] => .ok ⟨today, p0, p1, p2, p3, []⟩
  | _ => .error valueErrorFormat

/-- The comma delimiter of `message.split(',')`. -/
def isComma (c : Char) : Bool :=
  c = ','

/-- Line 38: `parts = [part.strip() for part in message.split(',')]`. -/
def messageParts (message : String) : List (List Char) :=
  (splitBy isComma message.toList).map pyStrip

/-- Lines 41-74 applied to an already-split part list: resolve the segments,
then build the returned dict, converting `price` with `float` (line 70). -/
def parseParts (today : Date) (parts : List (List Char)) : Except PyErr ExpenseRecord :=
  match resolveSegments today parts with
  | .ok r =>
    match pyFloat r.priceStr with
    | some v =>
      .ok ⟨r.date, String.mk r.item, v, String.mk r.store,
           String.mk r.category, String.mk r.quantity⟩
    | none => .error (floatErrMsg r.priceStr)
  | .error e => .error e

/-- `parse_expense_message` (src/bot.py lines 32-74).  `today` models
`datetime.now().date()`; a `ValueError` escaping the Python function is the
`Except.error` case. -/
def parse_expense_message (today : Date) (message : String) : Except PyErr ExpenseRecord :=
  parseParts today (messageParts message)

/-- Replies sent by `handle_expense`: the success confirmation (line 147), the
format-guidance error reply of the `except ValueError` clause (line 159), or
the generic unexpected-error reply of the `except Exception` clause (line 165). -/
inductive Reply where
  | success (r : ExpenseRecord)
  | formatError (veMsg : String)
  | unexpected (msg : String)
deriving DecidableEq, Repr

/-- An outbound call to the external database: `notion.pages.create`
(line 96) with the target database and the mapped record. -/
inductive NotionCall where
  | createPage (databaseId : String) (r : ExpenseRecord)
deriving DecidableEq, Repr

/-- `handle_expense` (src/bot.py lines 89-165): parse the message; on success
attempt the `notion.pages.create` call and reply.  `submitErr = some m` models
the external call raising a non-ValueError exception with text `m` (Notion
client errors are not `ValueError`, so they reach the generic handler).  The
result is the list of attempted database calls and the reply sent. -/
def handle_expense (today : Date) (dbId : String) (text : String)
    (submitErr : Option String) : List NotionCall × Reply :=
  match parse_expense_message today text with
  | .ok r =>
    match submitErr with
    | none => ([.createPage dbId r], .success r)
    | some m => ([.createPage dbId r], .unexpected m)
  | .error (.valueError m) => ([], .formatError m)
  | .error (.otherError m) => ([], .unexpected m)

/-! ### Helper lemmas shared by several claims -/

/-- Segment-count rejection at the list level: a part list whose length is not
4, 5 or 6 hits the `else` branch of line 64 and raises the format ValueError. -/
theorem resolve_len_error (today : Date) (parts : List (List Char))
    (h4 : parts.length ≠ 4) (h5 : parts.length ≠ 5) (h6 : parts.length ≠ 6) :
    resolveSegments today parts = .error valueErrorFormat := by
  rcases parts with _ | ⟨a, _ | ⟨b, _ | ⟨c, _ | ⟨d, _ | ⟨f, _ | ⟨g, _ | ⟨k, rest⟩⟩⟩⟩⟩⟩⟩
  · rfl
  · rfl
  · rfl
  · rfl
  · simp at h4
  · simp at h5
  · simp at h6
  · rfl

/-- Any error produced by the segment-resolution step is one of the two
`ValueError`s of lines 49 and 65. -/
theorem resolve_error_cases (today : Date) (parts : List (List Char)) (e : PyErr)
    (h : resolveSegments today parts = .error e) :
    e = valueErrorUnpack ∨ e = valueErrorFormat := by
  unfold resolveSegments at h
  rcases parts with _ | ⟨a, _ | ⟨b, _ | ⟨c, _ | ⟨d, _ | ⟨f, _ | ⟨g, _ | ⟨k, rest⟩⟩⟩⟩⟩⟩⟩ <;>
    dsimp only at h
  · injection h with h2; exact Or.inr h2.symm
  · injection h with h2; exact Or.inr h2.symm
  · injection h with h2; exact Or.inr h2.symm
  · injection h with h2; exact Or.inr h2.symm
  · exact Except.noConfusion h
  · cases hd : strptimeDate a <;> rw [hd] at h <;> dsimp only at h <;>
      exact Except.noConfusion h
  · cases hd : strptimeDate a <;> rw [hd] at h <;> dsimp only at h
    · injection h with h2; exact Or.inl h2.symm
    · exact Except.noConfusion h
  · injection h with h2; exact Or.inr h2.symm

/-- Every error escaping `parse_expense_message` is a Python `ValueError`. -/
theorem parse_error_valueError (today : Date) (msg : String) (e : PyErr)
    (h : parse_expense_message today msg = .error e) :
    ∃ m, e = .valueError m := by
  unfold parse_expense_message parseParts at h
  cases hres : resolveSegments today (messageParts msg) with
  | error e2 =>
    rw [hres] at h
    dsimp only at h
    injection h with h2
    rcases resolve_error_cases today (messageParts msg) e2 hres with h3 | h3
    · exact ⟨"too many values to unpack (expected 5)", by rw [← h2, h3]; rfl⟩
    · exact ⟨formatErrStr, by rw [← h2, h3]; rfl⟩
  | ok r =>
    rw [hres] at h
    dsimp only at h
    cases hfl : pyFloat r.priceStr with
    | some v => rw [hfl] at h; dsimp only at h; exact Except.noConfusion h
    | none =>
      rw [hfl] at h
      dsimp only at h
      injection h with h2
      exact ⟨floatErrStr r.priceStr, by rw [← h2]; rfl⟩

/-- The item variable resolved by lines 41-65 is always one of the parts. -/
theorem resolve_ok_item_mem (today : Date) (parts : List (List Char)) (res : Resolved)
    (h : resolveSegments today parts = .ok res) :
    res.item ∈ parts := by
  unfold resolveSegments at h
  rcases parts with _ | ⟨a, _ | ⟨b, _ | ⟨c, _ | ⟨d, _ | ⟨f, _ | ⟨g, _ | ⟨k, rest⟩⟩⟩⟩⟩⟩⟩ <;>
    dsimp only at h
  · exact Except.noConfusion h
  · exact Except.noConfusion h
  · exact Except.noConfusion h
  · exact Except.noConfusion h
  · injection h with h2; rw [← h2]; simp
  · cases hd : strptimeDate a <;> rw [hd] at h <;> dsimp only at h <;>
      (injection h with h2; rw [← h2]; simp)
  · cases hd : strptimeDate a <;> rw [hd] at h <;> dsimp only at h
    · exact Except.noConfusion h
    · injection h with h2; rw [← h2]; simp
  · exact Except.noConfusion h

/-! ### Claims -/

/-- C3: for every input that splits into exactly 4 comma-delimited trimmed
segments with a numeric price segment, parse succeeds with item, price, store,
category taken positionally, quantity = "" and date = the processing date. -/
theorem C3_theorem (today : Date) (msg : String) (p0 p1 p2 p3 : List Char) (v : PyFloat)
    (hparts : messageParts msg = [p0, p1, p2, p3]) (hprice : pyFloat p1 = some v) :
    parse_expense_message today msg =
      .ok ⟨today, String.mk p0, v, String.mk p2, String.mk p3, ""⟩ := by
  unfold parse_expense_message parseParts
  rw [hparts]
  dsimp only [resolveSegments]
  rw [hprice]

/-- Witness for C3 at `"Eggs, 3.50, Walmart, Groceries"`. -/
theorem C3_witness :
    parse_expense_message ⟨2025, 10, 12⟩ "Eggs, 3.50, Walmart, Groceries" =
      .ok ⟨⟨2025, 10, 12⟩, "Eggs", .finite 350 (-2), "Walmart", "Groceries", ""⟩ :=
  C3_theorem ⟨2025, 10, 12⟩ "Eggs, 3.50, Walmart, Groceries"
    "Eggs".toList "3.50".toList "Walmart".toList "Groceries".toList
    (.finite 350 (-2)) (by decide) (by decide)

/-- C5: for every input whose comma-split segment count is not 4, 5 or 6,
parse fails with the ValueError of line 65, whose message carries the
description "Invalid message format" as a prefix (first 22 characters). -/
theorem C5_theorem (today : Date) (msg : String)
    (h4 : (messageParts msg).length ≠ 4)
    (h5 : (messageParts msg).length ≠ 5)
    (h6 : (messageParts msg).length ≠ 6) :
    parse_expense_message today msg = .error (.valueError formatErrStr) ∧
    formatErrStr.toList.take 22 = "Invalid message format".toList := by
  refine ⟨?_, by decide⟩
  unfold parse_expense_message parseParts
  rw [resolve_len_error today (messageParts msg) h4 h5 h6]
  rfl

/-- Witness for C5 at the 3-segment input `"A, B, C"`. -/
theorem C5_witness :
    parse_expense_message ⟨2025, 10, 12⟩ "A, B, C" = .error (.valueError formatErrStr) ∧
    formatErrStr.toList.take 22 = "Invalid message format".toList :=
  C5_theorem ⟨2025, 10, 12⟩ "A, B, C" (by decide) (by decide) (by decide)

/-- C6: whenever parsing fails, `handle_expense` attempts no
`notion.pages.create` call — the list of outbound database calls is empty. -/
theorem C6_theorem (today : Date) (dbId : String) (se : Option String) (msg : String)
    (e : PyErr) (h : parse_expense_message today msg = .error e) :
    (handle_expense today dbId msg se).1 = [] := by
  unfold handle_expense
  rw [h]
  cases e <;> rfl

/-- Witness for C6 at the failing input `"A, B, C"`. -/
theorem C6_witness :
    (handle_expense ⟨2025, 10, 12⟩ "db" "A, B, C" none).1 = [] :=
  C6_theorem ⟨2025, 10, 12⟩ "db" none "A, B, C" valueErrorFormat (by rfl)

/-- C10: every failure of parse is a `ValueError`, and `handle_expense`
therefore always answers a parse failure with the format-guidance reply,
never with the generic unexpected-error reply. -/
theorem C10_theorem (today : Date) (dbId : String) (se : Option String) (msg : String)
    (e : PyErr) (h : parse_expense_message today msg = .error e) :
    ∃ m, e = .valueError m ∧ (handle_expense today dbId msg se).2 = .formatError m := by
  obtain ⟨m, rfl⟩ := parse_error_valueError today msg e h
  refine ⟨m, rfl, ?_⟩
  unfold handle_expense
  rw [h]

/-- Witness for C10 at the failing input `"A, B, C"`. -/
theorem C10_witness :
    (handle_expense ⟨2025, 10, 12⟩ "db" "A, B, C" none).2 = .formatError formatErrStr := by
  obtain ⟨m, hm, hr⟩ :=
    C10_theorem ⟨2025, 10, 12⟩ "db" none "A, B, C" valueErrorFormat (by rfl)
  have : m = formatErrStr := by
    have := hm
    injection this with h2
    exact h2.symm
  rw [this] at hr
  exact hr

/-- C4: whenever segment resolution succeeds but the resolved price segment is
not a valid Python float literal, parse fails with the numeric-conversion
ValueError of line 70, and `handle_expense` surfaces it through the
`except ValueError` clause: the user gets the format-guidance reply, not the
generic unexpected-error reply. -/
theorem C4_theorem (today : Date) (dbId : String) (se : Option String) (msg : String)
    (r : Resolved) (hres : resolveSegments today (messageParts msg) = .ok r)
    (hfl : pyFloat r.priceStr = none) :
    parse_expense_message today msg = .error (.valueError (floatErrStr r.priceStr)) ∧
    (handle_expense today dbId msg se).2 = .formatError (floatErrStr r.priceStr) := by
  have hp : parse_expense_message today msg = .error (floatErrMsg r.priceStr) := by
    unfold parse_expense_message parseParts
    rw [hres]
    dsimp only
    rw [hfl]
  exact ⟨hp, by unfold handle_expense; rw [hp]; rfl⟩

/-- Witness for C4 at `"Eggs, notanumber, Walmart, Groceries"`. -/
theorem C4_witness :
    parse_expense_message ⟨2025, 10, 12⟩ "Eggs, notanumber, Walmart, Groceries" =
      .error (.valueError (floatErrStr "notanumber".toList)) ∧
    (handle_expense ⟨2025, 10, 12⟩ "db" "Eggs, notanumber, Walmart, Groceries" none).2 =
      .formatError (floatErrStr "notanumber".toList) :=
  C4_theorem ⟨2025, 10, 12⟩ "db" none "Eggs, notanumber, Walmart, Groceries"
    ⟨⟨2025, 10, 12⟩, "Eggs".toList, "notanumber".toList, "Walmart".toList,
      "Groceries".toList, []⟩ (by rfl) (by rfl)

/-- C1 counterexample: `"2024-01-15, Bread, x, Kroger, Groceries"` splits into
exactly 5 trimmed segments and segment 0 parses as a date, yet parse does not
return a record — `float('x')` raises, so the claim as stated is false. -/
theorem C1_counterexample :
    messageParts "2024-01-15, Bread, x, Kroger, Groceries" =
      ["2024-01-15".toList, "Bread".toList, "x".toList, "Kroger".toList, "Groceries".toList] ∧
    strptimeDate "2024-01-15".toList = some ⟨2024, 1, 15⟩ ∧
    parse_expense_message ⟨2025, 10, 12⟩ "2024-01-15, Bread, x, Kroger, Groceries" =
      .error (.valueError (floatErrStr "x".toList)) :=
  ⟨by decide, by decide, by rfl⟩

/-- C1 (amended): for every input that splits into exactly 5 comma-delimited
trimmed segments whose resolved price segment parses as a float: if segment 0
parses as an ISO `YYYY-MM-DD` date the result is date = that date, the fields
item/price/store/category from segments 1-4 and quantity = ""; if segment 0
does not parse as a date, all 5 segments are consumed positionally as item,
price, store, category, quantity with date = the processing date. -/
theorem C1_theorem (today : Date) (msg : String) (p0 p1 p2 p3 p4 : List Char)
    (hparts : messageParts msg = [p0, p1, p2, p3, p4]) :
    (∀ (d : Date) (v : PyFloat), strptimeDate p0 = some d → pyFloat p2 = some v →
      parse_expense_message today msg =
        .ok ⟨d, String.mk p1, v, String.mk p3, String.mk p4, ""⟩) ∧
    (∀ v : PyFloat, strptimeDate p0 = none → pyFloat p1 = some v →
      parse_expense_message today msg =
        .ok ⟨today, String.mk p0, v, String.mk p2, String.mk p3, String.mk p4⟩) := by
  constructor
  · intro d v hd hv
    unfold parse_expense_message parseParts
    rw [hparts]
    dsimp only [resolveSegments]
    rw [hd]
    dsimp only
    rw [hv]
  · intro v hd hv
    unfold parse_expense_message parseParts
    rw [hparts]
    dsimp only [resolveSegments]
    rw [hd]
    dsimp only
    rw [hv]

/-- Witness for C1 (amended) at `"2024-01-15, Bread, 2.25, Kroger, Groceries"`. -/
theorem C1_witness :
    parse_expense_message ⟨2025, 10, 12⟩ "2024-01-15, Bread, 2.25, Kroger, Groceries" =
      .ok ⟨⟨2024, 1, 15⟩, "Bread", .finite 225 (-2), "Kroger", "Groceries", ""⟩ :=
  (C1_theorem ⟨2025, 10, 12⟩ "2024-01-15, Bread, 2.25, Kroger, Groceries"
      "2024-01-15".toList "Bread".toList "2.25".toList "Kroger".toList "Groceries".toList
      (by decide)).1 ⟨2024, 1, 15⟩ (.finite 225 (-2)) (by decide) (by decide)

/-- C2 counterexample: `"a, 1, b, c, d, e"` splits into exactly 6 trimmed
segments and segment 0 is not a date, yet parse does not succeed: the fallback
`item, price, store, category, quantity = parts` unpacks 6 values into 5
names and raises `ValueError: too many values to unpack`. -/
theorem C2_counterexample :
    (messageParts "a, 1, b, c, d, e").length = 6 ∧
    strptimeDate "a".toList = none ∧
    parse_expense_message ⟨2025, 10, 12⟩ "a, 1, b, c, d, e" = .error valueErrorUnpack :=
  ⟨by decide, by decide, by rfl⟩

/-- C2 (amended): for every input that splits into exactly 6 comma-delimited
trimmed segments whose segment 0 does not parse as an ISO date, parse fails
with `ValueError: too many values to unpack (expected 5)` — the 6 segments are
never consumed positionally and no segment is silently dropped; no record is
returned. -/
theorem C2_theorem (today : Date) (msg : String) (p0 p1 p2 p3 p4 p5 : List Char)
    (hparts : messageParts msg = [p0, p1, p2, p3, p4, p5])
    (hd : strptimeDate p0 = none) :
    parse_expense_message today msg = .error valueErrorUnpack := by
  unfold parse_expense_message parseParts
  rw [hparts]
  dsimp only [resolveSegments]
  rw [hd]

/-- Witness for C2 (amended) at `"a, 1, b, c, d, e"`. -/
theorem C2_witness :
    parse_expense_message ⟨2025, 10, 12⟩ "a, 1, b, c, d, e" = .error valueErrorUnpack :=
  C2_theorem ⟨2025, 10, 12⟩ "a, 1, b, c, d, e" "a".toList "1".toList "b".toList
    "c".toList "d".toList "e".toList (by decide) (by decide)

/-- C7 counterexample: parse succeeds on `"Eggs, -5, Walmart, Groceries"` and
the resulting price, `float('-5') = -5.0`, is not strictly greater than zero
— the code performs no positivity check. -/
theorem C7_counterexample :
    parse_expense_message ⟨2025, 10, 12⟩ "Eggs, -5, Walmart, Groceries" =
      .ok ⟨⟨2025, 10, 12⟩, "Eggs", .finite (-5) 0, "Walmart", "Groceries", ""⟩ ∧
    PyFloat.isPos (.finite (-5) 0) = false :=
  ⟨by rfl, by decide⟩

/-- C7 (amended): every record successfully constructed by parse has a numeric
price — the price field is exactly the successful `float` conversion of the
resolved price segment — but it need not be positive. -/
theorem C7_theorem (today : Date) (msg : String) (r : ExpenseRecord)
    (h : parse_expense_message today msg = .ok r) :
    ∃ res : Resolved, resolveSegments today (messageParts msg) = .ok res ∧
      pyFloat res.priceStr = some r.price := by
  unfold parse_expense_message parseParts at h
  cases hres : resolveSegments today (messageParts msg) with
  | error e2 => rw [hres] at h; dsimp only at h; exact Except.noConfusion h
  | ok res =>
    rw [hres] at h
    dsimp only at h
    cases hfl : pyFloat res.priceStr with
    | none => rw [hfl] at h; dsimp only at h; exact Except.noConfusion h
    | some v =>
      rw [hfl] at h
      dsimp only at h
      injection h with h2
      exact ⟨res, rfl, by rw [← h2, hfl]⟩

/-- Witness for C7 (amended) at `"Eggs, 3.50, Walmart, Groceries"`. -/
theorem C7_witness :
    ∃ res : Resolved,
      resolveSegments ⟨2025, 10, 12⟩ (messageParts "Eggs, 3.50, Walmart, Groceries") =
        .ok res ∧
      pyFloat res.priceStr = some (.finite 350 (-2)) :=
  C7_theorem ⟨2025, 10, 12⟩ "Eggs, 3.50, Walmart, Groceries"
    ⟨⟨2025, 10, 12⟩, "Eggs", .finite 350 (-2), "Walmart", "Groceries", ""⟩ (by rfl)

/-- C8 counterexample: parse succeeds on `", 3.50, Walmart, Groceries"` with
item = "" — the code performs no non-emptiness check on the item segment. -/
theorem C8_counterexample :
    parse_expense_message ⟨2025, 10, 12⟩ ", 3.50, Walmart, Groceries" =
      .ok ⟨⟨2025, 10, 12⟩, "", .finite 350 (-2), "Walmart", "Groceries", ""⟩ ∧
    (⟨⟨2025, 10, 12⟩, "", .finite 350 (-2), "Walmart", "Groceries", ""⟩ :
      ExpenseRecord).item = "" :=
  ⟨by rfl, by rfl⟩

/-- C8 (amended): the item field of every successfully parsed record is carried
through verbatim from one of the trimmed comma-delimited segments of the
message, with no validation — in particular it may be the empty string. -/
theorem C8_theorem (today : Date) (msg : String) (r : ExpenseRecord)
    (h : parse_expense_message today msg = .ok r) :
    r.item ∈ (messageParts msg).map String.mk := by
  unfold parse_expense_message parseParts at h
  cases hres : resolveSegments today (messageParts msg) with
  | error e2 => rw [hres] at h; dsimp only at h; exact Except.noConfusion h
  | ok res =>
    rw [hres] at h
    dsimp only at h
    cases hfl : pyFloat res.priceStr with
    | none => rw [hfl] at h; dsimp only at h; exact Except.noConfusion h
    | some v =>
      rw [hfl] at h
      dsimp only at h
      injection h with h2
      rw [← h2]
      exact List.mem_map_of_mem String.mk (resolve_ok_item_mem today (messageParts msg) res hres)

/-- Witness for C8 (amended) at `"Eggs, 3.50, Walmart, Groceries"`. -/
theorem C8_witness :
    ("Eggs" : String) ∈ (messageParts "Eggs, 3.50, Walmart, Groceries").map String.mk :=
  C8_theorem ⟨2025, 10, 12⟩ "Eggs, 3.50, Walmart, Groceries"
    ⟨⟨2025, 10, 12⟩, "Eggs", .finite 350 (-2), "Walmart", "Groceries", ""⟩ (by rfl)

/-! ### Whitespace insensitivity (C9) -/

/-- `','.join(segs)`: rebuild a message from its comma-delimited segments. -/
def joinComma : List (List Char) → List Char
  | [] => []
  | [s] => s
  | s :: s2 :: rest => s ++ ',' :: joinComma (s2 :: rest)

/-- Surround a segment with a leading and a trailing filler. -/
def padSeg (pr : List Char × List Char) (s : List Char) : List Char :=
  pr.1 ++ s ++ pr.2

/-- Surround every segment with its own fillers. -/
def padSegs (pads : List (List Char × List Char)) (segs : List (List Char)) :
    List (List Char) :=
  List.zipWith padSeg pads segs

theorem isSpace_not_comma (c : Char) (h : isSpace c = true) : isComma c = false := by
  simp only [isSpace, Bool.or_eq_true, decide_eq_true_eq] at h
  rcases h with ((((h | h) | h) | h) | h) | h <;> subst h <;> rfl

theorem lstrip_all_space (w : List Char) (h : ∀ c ∈ w, isSpace c = true) :
    lstrip w = [] := by
  induction w with
  | nil => rfl
  | cons c cs ih =>
    unfold lstrip at ih ⊢
    rw [List.dropWhile_cons_of_pos (h c (by simp))]
    exact ih fun x hx => h x (by simp [hx])

theorem lstrip_append_space (w t : List Char) (h : ∀ c ∈ w, isSpace c = true) :
    lstrip (w ++ t) = lstrip t :=
  List.dropWhile_append_of_pos h

theorem rstrip_append_space (t w : List Char) (h : ∀ c ∈ w, isSpace c = true) :
    rstrip (t ++ w) = rstrip t := by
  unfold rstrip
  rw [List.reverse_append,
    List.dropWhile_append_of_pos fun a ha => h a (List.mem_reverse.mp ha)]

/-- Stripping ignores whitespace padding on both sides. -/
theorem pyStrip_pad (w1 w2 s : List Char)
    (h1 : ∀ c ∈ w1, isSpace c = true) (h2 : ∀ c ∈ w2, isSpace c = true) :
    pyStrip (w1 ++ s ++ w2) = pyStrip s := by
  unfold pyStrip
  rw [List.append_assoc, lstrip_append_space w1 (s ++ w2) h1]
  unfold lstrip
  rw [List.dropWhile_append]
  by_cases he : (List.dropWhile isSpace s).isEmpty
  · rw [if_pos he]
    have hs : List.dropWhile isSpace s = [] := by
      cases hd : List.dropWhile isSpace s
      · rfl
      · rw [hd] at he; simp [List.isEmpty] at he
    have hw : List.dropWhile isSpace w2 = [] := lstrip_all_space w2 h2
    rw [hs, hw]
  · rw [if_neg he]
    exact rstrip_append_space (List.dropWhile isSpace s) w2 h2

theorem splitBy_all_neg (p : Char → Bool) (s : List Char) (h : ∀ c ∈ s, p c = false) :
    splitBy p s = [s] := by
  induction s with
  | nil => rfl
  | cons c cs ih =>
    unfold splitBy
    rw [if_neg (by simp [h c (by simp)])]
    rw [ih fun x hx => h x (by simp [hx])]

theorem splitBy_sep_append (p : Char → Bool) (s rest : List Char) (sep : Char)
    (hs : ∀ c ∈ s, p c = false) (hsep : p sep = true) :
    splitBy p (s ++ sep :: rest) = s :: splitBy p rest := by
  induction s with
  | nil =>
    show splitBy p (sep :: rest) = [] :: splitBy p rest
    conv_lhs => rw [splitBy]
    rw [if_pos hsep]
  | cons c cs ih =>
    show splitBy p (c :: (cs ++ sep :: rest)) = (c :: cs) :: splitBy p rest
    conv_lhs => rw [splitBy]
    rw [if_neg (by simp [hs c (by simp)])]
    rw [ih fun x hx => hs x (by simp [hx])]

theorem padSeg_comma_free (pr : List Char × List Char) (s : List Char)
    (hw1 : ∀ c ∈ pr.1, isSpace c = true) (hw2 : ∀ c ∈ pr.2, isSpace c = true)
    (hs : ∀ c ∈ s, isComma c = false) :
    ∀ c ∈ padSeg pr s, isComma c = false := by
  intro c hc
  unfold padSeg at hc
  rcases List.mem_append.mp hc with hc1 | hc2
  · rcases List.mem_append.mp hc1 with hca | hcb
    · exact isSpace_not_comma c (hw1 c hca)
    · exact hs c hcb
  · exact isSpace_not_comma c (hw2 c hc2)

/-- Splitting a message rebuilt from whitespace-padded comma-free segments and
stripping each part recovers exactly the stripped unpadded segments. -/
theorem messageParts_join_pad :
    ∀ (segs : List (List Char)) (pads : List (List Char × List Char)),
      pads.length = segs.length → segs ≠ [] →
      (∀ pr ∈ pads, (∀ c ∈ pr.1, isSpace c = true) ∧ (∀ c ∈ pr.2, isSpace c = true)) →
      (∀ s ∈ segs, ∀ c ∈ s, isComma c = false) →
      (splitBy isComma (joinComma (padSegs pads segs))).map pyStrip =
        segs.map pyStrip := by
  intro segs
  induction segs with
  | nil => intro pads _ hne _ _; exact absurd rfl hne
  | cons s rest ih =>
    intro pads hlen hne hws hcf
    rcases pads with _ | ⟨pr, pads2⟩
    · simp at hlen
    have hw1 := (hws pr (by simp)).1
    have hw2 := (hws pr (by simp)).2
    have hcs := hcf s (by simp)
    rcases rest with _ | ⟨s2, rest2⟩
    · have hp2 : pads2 = [] := by simpa using hlen
      subst hp2
      show (splitBy isComma (joinComma [padSeg pr s])).map pyStrip = [s].map pyStrip
      rw [show joinComma [padSeg pr s] = padSeg pr s from rfl]
      rw [splitBy_all_neg isComma (padSeg pr s) (padSeg_comma_free pr s hw1 hw2 hcs)]
      show [pyStrip (padSeg pr s)] = [pyStrip s]
      rw [show padSeg pr s = pr.1 ++ s ++ pr.2 from rfl, pyStrip_pad pr.1 pr.2 s hw1 hw2]
    · rcases pads2 with _ | ⟨pr2, pads3⟩
      · simp at hlen
      rw [show joinComma (padSegs (pr :: pr2 :: pads3) (s :: s2 :: rest2)) =
            padSeg pr s ++ ',' :: joinComma (padSegs (pr2 :: pads3) (s2 :: rest2)) from rfl]
      rw [splitBy_sep_append isComma (padSeg pr s) _ ','
        (padSeg_comma_free pr s hw1 hw2 hcs) (by rfl)]
      rw [List.map_cons, List.map_cons]
      rw [show padSeg pr s = pr.1 ++ s ++ pr.2 from rfl, pyStrip_pad pr.1 pr.2 s hw1 hw2]
      rw [ih (pr2 :: pads3) (by simpa using hlen) (by simp)
        (fun q hq => hws q (by simp [hq])) (fun q hq => hcf q (by simp [hq]))]

theorem padSegs_trivial (segs : List (List Char)) :
    padSegs (segs.map fun _ => (([] : List Char), ([] : List Char))) segs = segs := by
  induction segs with
  | nil => rfl
  | cons s rest ih =>
    simp only [List.map_cons]
    show padSeg ([], []) s :: padSegs (rest.map fun _ => ([], [])) rest = s :: rest
    rw [ih]
    simp [padSeg]

/-- C9: parsing is insensitive to leading/trailing whitespace around segments.
For any comma-free segments and any whitespace fillers, parsing the message
rebuilt from the padded segments equals parsing the message rebuilt from the
segments themselves; in particular
`parse("Eggs , 3.50 , Walmart , Groceries") = parse("Eggs, 3.50, Walmart, Groceries")`. -/
theorem C9_theorem (today : Date) (segs : List (List Char))
    (pads : List (List Char × List Char))
    (hlen : pads.length = segs.length) (hne : segs ≠ [])
    (hws : ∀ pr ∈ pads, (∀ c ∈ pr.1, isSpace c = true) ∧ (∀ c ∈ pr.2, isSpace c = true))
    (hcf : ∀ s ∈ segs, ∀ c ∈ s, isComma c = false) :
    parse_expense_message today (String.mk (joinComma (padSegs pads segs))) =
      parse_expense_message today (String.mk (joinComma segs)) ∧
    parse_expense_message today "Eggs , 3.50 , Walmart , Groceries" =
      parse_expense_message today "Eggs, 3.50, Walmart, Groceries" := by
  constructor
  · have h1 : messageParts (String.mk (joinComma (padSegs pads segs))) = segs.map pyStrip := by
      unfold messageParts
      exact messageParts_join_pad segs pads hlen hne hws hcf
    have h2 : messageParts (String.mk (joinComma segs)) = segs.map pyStrip := by
      unfold messageParts
      have htriv := messageParts_join_pad segs (segs.map fun _ => ([], []))
        (by simp) hne
        (by
          intro pr hpr
          rcases List.mem_map.mp hpr with ⟨x, _, rfl⟩
          exact ⟨fun c hc => absurd hc (List.not_mem_nil c),
            fun c hc => absurd hc (List.not_mem_nil c)⟩)
        hcf
      rwa [padSegs_trivial segs] at htriv
    unfold parse_expense_message
    rw [h1, h2]
  · have h3 : messageParts "Eggs , 3.50 , Walmart , Groceries" =
        messageParts "Eggs, 3.50, Walmart, Groceries" := by decide
    unfold parse_expense_message
    rw [h3]

/-- Witness for C9 at the spec's concrete pair of messages. -/
theorem C9_witness :
    parse_expense_message ⟨2025, 10, 12⟩ "Eggs , 3.50 , Walmart , Groceries" =
      parse_expense_message ⟨2025, 10, 12⟩ "Eggs, 3.50, Walmart, Groceries" :=
  (C9_theorem ⟨2025, 10, 12⟩
      ["Eggs".toList, "3.50".toList, "Walmart".toList, "Groceries".toList]
      [([], [' ']), ([' '], [' ']), ([' '], [' ']), ([' '], [])]
      (by decide) (by decide) (by decide) (by decide)).2

end NotionExpense
